import Mathlib

/-!
Shallow embedding of `src/sandbox/nsjail.rs` (winecellar), the typed
configuration builder for the external nsjail launcher.

Modelling choices:
- `PathBuf` is modelled as `String`; `Path::display` on a unicode path
  renders the path itself, and `format!("{}:{}", a, b)` is `a ++ ":" ++ b`.
- `u64` identities are modelled as `Nat`; they are only ever rendered via
  `to_string`, so no overflow arithmetic is in scope.
- `HashMap<String, String>` is modelled as an association list; the claims
  never inspect map semantics beyond emptiness.
- `std::process::Command` is modelled as a record of program, ordered
  argument list and environment entries; `cmd.arg` appends to `args` and
  `cmd.envs` extends `envs`.
- Methods taking `&mut self` and returning `&mut Self` are modelled as
  functions returning the updated value; fluent chains become `foldl`.
-/

namespace Winecellar

/-- Embedding of Rust `enum NSMountType`. -/
inductive NSMountType where
  | BindMount (src dest : String)
  | TmpFs (dest : String)
  deriving DecidableEq

/-- Embedding of Rust `struct NSMount`. -/
structure NSMount where
  type : NSMountType
  readwrite : Bool
  mandatory : Bool
  deriving DecidableEq

/-- Embedding of `NSMount::bind`: a readwrite, mandatory bindmount. -/
def NSMount.bind (src dest : String) : NSMount :=
  { type := NSMountType.BindMount src dest
    readwrite := true
    mandatory := true }

/-- Embedding of `NSMount::readonly`: `bind` with `readwrite` set to `false`. -/
def NSMount.readonly (src dest : String) : NSMount :=
  { NSMount.bind src dest with readwrite := false }

/-- Embedding of `NSMount::temp`. -/
def NSMount.temp (dest : String) : NSMount :=
  { type := NSMountType.TmpFs dest
    readwrite := true
    mandatory := true }

/-- Embedding of `NSMount::make_readonly`. -/
def NSMount.make_readonly (m : NSMount) : NSMount :=
  { m with readwrite := false }

/-- Embedding of `NSMount::make_readwrite`. -/
def NSMount.make_readwrite (m : NSMount) : NSMount :=
  { m with readwrite := true }

/-- Embedding of the Rust method `NSMount::mandatory` (renamed here because
the structure field accessor already carries the name `mandatory`). -/
def NSMount.set_mandatory (m : NSMount) : NSMount :=
  { m with mandatory := true }

/-- Embedding of `NSMount::not_mandatory`. -/
def NSMount.not_mandatory (m : NSMount) : NSMount :=
  { m with mandatory := false }

/-- Embedding of `NSMount::to_write_arg`. -/
def NSMount.to_write_arg (m : NSMount) : String × String :=
  match m.type with
  | NSMountType.BindMount src dest =>
    let map := src ++ ":" ++ dest
    let arg := if m.readwrite then "--bindmount" else "--bindmount_ro"
    (arg, map)
  | NSMountType.TmpFs dest => ("-m", "none:" ++ dest ++ ":tmpfs:" ++ "")

/-- Embedding of Rust `struct NSSymlink`. -/
structure NSSymlink where
  src : String
  dest : String
  deriving DecidableEq

/-- Embedding of `NSSymlink::new`. -/
def NSSymlink.new (src dest : String) : NSSymlink :=
  { src := src, dest := dest }

/-- Embedding of `impl Into<NSSymlink> for (PathBuf, PathBuf)` (and its
static-str twin, which delegates to the same `NSSymlink::new`). -/
def NSSymlink.ofPair (p : String × String) : NSSymlink :=
  NSSymlink.new p.1 p.2

/-- Embedding of Rust `struct NSJail`. -/
structure NSJail where
  mounts : List NSMount
  links : List NSSymlink
  env : List (String × String)
  user : Nat
  group : Nat

/-- Model of `std::process::Command` as assembled by `NSJail::command`:
program path, ordered argument list, environment entries. -/
structure Command where
  program : String
  args : List String
  envs : List (String × String)
  deriving DecidableEq

/-- Embedding of `NSJail::command`: `--user <uid> --group <gid>`, then each
mount rendered by `to_write_arg` in order, then `--keep_env`, then `--`;
the configured environment map is attached via `cmd.envs`. -/
def NSJail.command (j : NSJail) : Command :=
  { program := "/usr/bin/nsjail"
    args :=
      ["--user", toString j.user, "--group", toString j.group]
        ++ (j.mounts.map NSMount.to_write_arg).flatMap (fun p => [p.1, p.2])
        ++ ["--keep_env", "--"]
    envs := j.env }

/-- Embedding of `NSJail::mount`: push onto the mount list. -/
def NSJail.mount (j : NSJail) (m : NSMount) : NSJail :=
  { j with mounts := j.mounts ++ [m] }

/-- Embedding of `NSJail::symlink`: push onto the link list. -/
def NSJail.symlink (j : NSJail) (l : NSSymlink) : NSJail :=
  { j with links := j.links ++ [l] }

/-- Embedding of `impl Default for NSJail`. -/
def NSJail.default : NSJail :=
  { mounts := [], links := [], env := [], user := 1000, group := 1000 }

/-- Decimal digit characters never include a dash. -/
theorem digitChar_ne_dash (n : Nat) : Nat.digitChar n ≠ '-' := by
  rcases Nat.lt_or_ge n 16 with h | h
  · interval_cases n <;> decide
  · intro hc
    unfold Nat.digitChar at hc
    iterate 16 rw [if_neg (by omega)] at hc
    exact absurd hc (by decide)

/-- No character produced by `Nat.toDigitsCore` at base 10 is a dash,
provided the accumulator has none. -/
theorem toDigitsCore_ne_dash (fuel : Nat) :
    ∀ (n : Nat) (ds : List Char), (∀ c ∈ ds, c ≠ '-') →
      ∀ c ∈ Nat.toDigitsCore 10 fuel n ds, c ≠ '-' := by
  induction fuel with
  | zero =>
    intro n ds h c hc
    exact h c hc
  | succ f ih =>
    intro n ds h c hc
    simp only [Nat.toDigitsCore] at hc
    split at hc
    · rcases List.mem_cons.mp hc with rfl | hmem
      · exact digitChar_ne_dash _
      · exact h c hmem
    · refine ih (n / 10) (Nat.digitChar (n % 10) :: ds) ?_ c hc
      intro x hx
      rcases List.mem_cons.mp hx with rfl | hx2
      · exact digitChar_ne_dash _
      · exact h x hx2

/-- The decimal rendering of a natural number contains no dash. -/
theorem toString_nat_no_dash (n : Nat) : ∀ c ∈ (toString n).data, c ≠ '-' := by
  have h : (toString n).data = Nat.toDigitsCore 10 (n + 1) n [] := rfl
  rw [h]
  refine toDigitsCore_ne_dash (n + 1) n [] ?_
  intro c hc
  exact absurd hc (List.not_mem_nil c)

/-- The decimal rendering of a natural number is never the terminator. -/
theorem toString_nat_ne_dashdash (n : Nat) : toString n ≠ "--" := by
  intro h
  have h2 : '-' ∈ (toString n).data := by
    rw [h]
    decide
  exact toString_nat_no_dash n '-' h2 rfl

/-- A string containing a colon is never the terminator. -/
theorem colon_mem_ne_dashdash (s : String) (h : ':' ∈ s.data) : s ≠ "--" := by
  intro he
  rw [he] at h
  exact absurd h (by decide)

/-- The flag rendered for any mount differs from the terminator. -/
theorem to_write_arg_fst_ne_dashdash (m : NSMount) : m.to_write_arg.1 ≠ "--" := by
  rcases m with ⟨t, w, mand⟩
  cases t with
  | BindMount src dest =>
    show (if w = true then "--bindmount" else "--bindmount_ro") ≠ "--"
    cases w <;> decide
  | TmpFs dest =>
    show "-m" ≠ "--"
    decide

/-- The value rendered for any mount contains a colon, hence differs from
the terminator. -/
theorem to_write_arg_snd_ne_dashdash (m : NSMount) : m.to_write_arg.2 ≠ "--" := by
  refine colon_mem_ne_dashdash _ ?_
  rcases m with ⟨t, w, mand⟩
  cases t with
  | BindMount src dest =>
    show ':' ∈ (src ++ ":" ++ dest).data
    rw [String.data_append, String.data_append]
    refine List.mem_append.mpr (Or.inl ?_)
    refine List.mem_append.mpr (Or.inr ?_)
    decide
  | TmpFs dest =>
    show ':' ∈ ("none:" ++ dest ++ ":tmpfs:" ++ "").data
    rw [String.data_append, String.data_append, String.data_append]
    refine List.mem_append.mpr (Or.inl ?_)
    refine List.mem_append.mpr (Or.inl ?_)
    refine List.mem_append.mpr (Or.inl ?_)
    decide

/-- Chained `mount` calls append the given specs, in order, to the mount
list and touch nothing else. -/
theorem foldl_mount_eq (specs : List NSMount) :
    ∀ j : NSJail, specs.foldl NSJail.mount j = { j with mounts := j.mounts ++ specs } := by
  induction specs with
  | nil =>
    intro j
    show j = { j with mounts := j.mounts ++ [] }
    rw [List.append_nil]
  | cons m ms ih =>
    intro j
    rw [List.foldl_cons, ih]
    simp [NSJail.mount, List.append_assoc]

/-- Chained `symlink` calls append the given links, in order, to the link
list and touch nothing else. -/
theorem foldl_symlink_eq (ls : List NSSymlink) :
    ∀ j : NSJail, ls.foldl NSJail.symlink j = { j with links := j.links ++ ls } := by
  induction ls with
  | nil =>
    intro j
    show j = { j with links := j.links ++ [] }
    rw [List.append_nil]
  | cons l ls ih =>
    intro j
    rw [List.foldl_cons, ih]
    simp [NSJail.symlink, List.append_assoc]

/-- C1: for every `NSJail`, the argument list built by `command` is exactly
`--user <uid> --group <gid>`, then each attached mount rendered as its
(flag, value) pair in order, then `--keep_env`, then the terminator `--`;
the terminator occurs exactly once and is the last argument. -/
theorem c1_command_arg_shape (j : NSJail) :
    j.command.args
      = ["--user", toString j.user, "--group", toString j.group]
          ++ (j.mounts.map NSMount.to_write_arg).flatMap (fun p => [p.1, p.2])
          ++ ["--keep_env", "--"]
    ∧ j.command.args.count "--" = 1
    ∧ j.command.args.getLast? = some "--" := by
  refine ⟨rfl, ?_, ?_⟩
  · show (["--user", toString j.user, "--group", toString j.group]
        ++ (j.mounts.map NSMount.to_write_arg).flatMap (fun p => [p.1, p.2])
        ++ ["--keep_env", "--"]).count "--" = 1
    rw [List.count_append, List.count_append]
    have h1 : (["--user", toString j.user, "--group", toString j.group]).count "--" = 0 := by
      rw [List.count_eq_zero]
      intro hmem
      rcases List.mem_cons.mp hmem with h | hmem
      · exact absurd h (by decide)
      rcases List.mem_cons.mp hmem with h | hmem
      · exact toString_nat_ne_dashdash j.user h.symm
      rcases List.mem_cons.mp hmem with h | hmem
      · exact absurd h (by decide)
      rcases List.mem_cons.mp hmem with h | hmem
      · exact toString_nat_ne_dashdash j.group h.symm
      · exact absurd hmem (List.not_mem_nil _)
    have h2 : ((j.mounts.map NSMount.to_write_arg).flatMap (fun p => [p.1, p.2])).count "--"
        = 0 := by
      rw [List.count_eq_zero]
      intro hmem
      rcases List.mem_flatMap.mp hmem with ⟨p, hp, hin⟩
      rcases List.mem_map.mp hp with ⟨m, _, rfl⟩
      rcases List.mem_cons.mp hin with h | hin
      · exact to_write_arg_fst_ne_dashdash m h.symm
      rcases List.mem_cons.mp hin with h | hin
      · exact to_write_arg_snd_ne_dashdash m h.symm
      · exact absurd hin (List.not_mem_nil _)
    have h3 : (["--keep_env", "--"]).count "--" = 1 := by decide
    omega
  · show (["--user", toString j.user, "--group", toString j.group]
        ++ (j.mounts.map NSMount.to_write_arg).flatMap (fun p => [p.1, p.2])
        ++ ["--keep_env", "--"]).getLast? = some "--"
    rw [List.getLast?_append]
    rfl

/-- C2: a bind mount renders as flag `--bindmount` when readwrite and
`--bindmount_ro` when read-only, with value `src:dest`; a tmpfs mount
renders as flag `-m` with value `none:dest:tmpfs:` ending in an empty
trailing field. -/
theorem c2_to_write_arg_rendering (m : NSMount) :
    (∀ src dest, m.type = NSMountType.BindMount src dest →
      m.to_write_arg
        = (if m.readwrite then "--bindmount" else "--bindmount_ro", src ++ ":" ++ dest))
    ∧ (∀ dest, m.type = NSMountType.TmpFs dest →
      m.to_write_arg = ("-m", "none:" ++ dest ++ ":tmpfs:" ++ "")) := by
  constructor
  · intro src dest h
    unfold NSMount.to_write_arg
    rw [h]
  · intro dest h
    unfold NSMount.to_write_arg
    rw [h]

/-- Witness for C2 at concrete mounts. -/
theorem c2_witness :
    (NSMount.bind "/a" "/b").to_write_arg = ("--bindmount", "/a:/b")
    ∧ (NSMount.readonly "/a" "/b").to_write_arg = ("--bindmount_ro", "/a:/b")
    ∧ (NSMount.temp "/tmp").to_write_arg = ("-m", "none:/tmp:tmpfs:") := by
  refine ⟨?_, ?_, ?_⟩
  · rw [(c2_to_write_arg_rendering (NSMount.bind "/a" "/b")).1 "/a" "/b" rfl]
    decide
  · rw [(c2_to_write_arg_rendering (NSMount.readonly "/a" "/b")).1 "/a" "/b" rfl]
    decide
  · rw [(c2_to_write_arg_rendering (NSMount.temp "/tmp")).2 "/tmp" rfl]
    decide

/-- C3: attaching a sequence of mounts via `mount` preserves order, and the
Nth emitted (flag, value) pair of the rendered argument list is the
rendering of the Nth attached spec. -/
theorem c3_mount_order_preserved (j : NSJail) (specs : List NSMount) (n : Nat)
    (h : n < specs.length) :
    (specs.foldl NSJail.mount j).mounts = j.mounts ++ specs
    ∧ ((specs.foldl NSJail.mount NSJail.default).mounts.map NSMount.to_write_arg)[n]?
        = some (specs[n].to_write_arg)
    ∧ (specs.foldl NSJail.mount NSJail.default).command.args
        = ["--user", "1000", "--group", "1000"]
            ++ (specs.map NSMount.to_write_arg).flatMap (fun p => [p.1, p.2])
            ++ ["--keep_env", "--"] := by
  have hd : (specs.foldl NSJail.mount NSJail.default).mounts = specs := by
    rw [foldl_mount_eq]
    rfl
  have hu : (specs.foldl NSJail.mount NSJail.default).user = 1000 := by
    rw [foldl_mount_eq]
    rfl
  have hg : (specs.foldl NSJail.mount NSJail.default).group = 1000 := by
    rw [foldl_mount_eq]
    rfl
  refine ⟨by rw [foldl_mount_eq], ?_, ?_⟩
  · rw [hd, List.getElem?_map, List.getElem?_eq_getElem h]
    rfl
  · show ["--user", toString (specs.foldl NSJail.mount NSJail.default).user, "--group",
        toString (specs.foldl NSJail.mount NSJail.default).group]
        ++ ((specs.foldl NSJail.mount NSJail.default).mounts.map
            NSMount.to_write_arg).flatMap (fun p => [p.1, p.2])
        ++ ["--keep_env", "--"] = _
    rw [hd, hu, hg]
    rw [show toString (1000 : Nat) = "1000" from rfl]

/-- Witness for C3 with two concrete mounts. -/
theorem c3_witness :
    ([NSMount.bind "/usr" "/usr", NSMount.readonly "/etc" "/etc"].foldl NSJail.mount
        NSJail.default).mounts
      = [NSMount.bind "/usr" "/usr", NSMount.readonly "/etc" "/etc"]
    ∧ (([NSMount.bind "/usr" "/usr", NSMount.readonly "/etc" "/etc"].foldl NSJail.mount
        NSJail.default).mounts.map NSMount.to_write_arg)[1]?
      = some ((NSMount.readonly "/etc" "/etc").to_write_arg) := by
  have h := c3_mount_order_preserved NSJail.default
    [NSMount.bind "/usr" "/usr", NSMount.readonly "/etc" "/etc"] 1 (by decide)
  exact ⟨h.1, h.2.1⟩

/-- C4: rendering never consults the mandatory flag: two mounts agreeing on
type and readwrite render identically, and toggling the mandatory setters
leaves the rendered pair unchanged. -/
theorem c4_mandatory_invisible (m₁ m₂ : NSMount)
    (ht : m₁.type = m₂.type) (hw : m₁.readwrite = m₂.readwrite) :
    m₁.to_write_arg = m₂.to_write_arg
    ∧ m₁.set_mandatory.to_write_arg = m₁.to_write_arg
    ∧ m₁.not_mandatory.to_write_arg = m₁.to_write_arg := by
  refine ⟨?_, rfl, rfl⟩
  unfold NSMount.to_write_arg
  rw [ht, hw]

/-- Witness for C4: a mandatory and a non-mandatory copy of the same bind
mount render identically. -/
theorem c4_witness :
    (NSMount.bind "/a" "/b").to_write_arg
      = ((NSMount.bind "/a" "/b").not_mandatory).to_write_arg := by
  exact (c4_mandatory_invisible (NSMount.bind "/a" "/b")
    ((NSMount.bind "/a" "/b").not_mandatory) rfl rfl).1

/-- C5: the rendered invocation is independent of the attached links: any
sequence of `symlink` calls leaves the entire rendered `Command` unchanged. -/
theorem c5_links_never_emitted (j : NSJail) (ls : List NSSymlink) :
    (ls.foldl NSJail.symlink j).command = j.command := by
  rw [foldl_symlink_eq]
  rfl

/-- C6 counterexample: the factory constructors accept empty paths, so a
constructed `BindMount` does not always carry a non-empty source. -/
theorem c6_counterexample :
    ¬ ∀ s d src dest, (NSMount.bind s d).type = NSMountType.BindMount src dest →
        src ≠ "" ∧ dest ≠ "" := by
  intro h
  exact ((h "" "/x" "" "/x" rfl).1 rfl)

/-- C6 amended: the constructors store the given paths verbatim, so whenever
the inputs are non-empty, the constructed `BindMount` and `NSSymlink` carry
non-empty source and destination paths; the pair conversion agrees with
`NSSymlink.new`. -/
theorem c6_nonempty_paths (s d : String) (hs : s ≠ "") (hd : d ≠ "") :
    ((NSMount.bind s d).type = NSMountType.BindMount s d ∧ s ≠ "" ∧ d ≠ "")
    ∧ (NSMount.readonly s d).type = NSMountType.BindMount s d
    ∧ ((NSSymlink.new s d).src = s ∧ (NSSymlink.new s d).dest = d ∧ s ≠ "" ∧ d ≠ "")
    ∧ NSSymlink.ofPair (s, d) = NSSymlink.new s d := by
  exact ⟨⟨rfl, hs, hd⟩, rfl, ⟨rfl, rfl, hs, hd⟩, rfl⟩

/-- Witness for the amended C6 at concrete non-empty paths. -/
theorem c6_witness :
    (NSMount.bind "/a" "/b").type = NSMountType.BindMount "/a" "/b"
    ∧ (NSSymlink.new "/a" "/b").src = "/a" := by
  have h := c6_nonempty_paths "/a" "/b" (by decide) (by decide)
  exact ⟨h.1.1, h.2.2.1.1⟩

/-- C7: `readonly` is exactly `bind` with the readwrite flag forced off; in
particular it stays mandatory, and `bind` itself is readwrite and
mandatory. -/
theorem c7_readonly_is_bind_readonly (s d : String) :
    NSMount.readonly s d = { NSMount.bind s d with readwrite := false }
    ∧ (NSMount.readonly s d).mandatory = true
    ∧ (NSMount.bind s d).readwrite = true
    ∧ (NSMount.bind s d).mandatory = true := by
  exact ⟨rfl, rfl, rfl, rfl⟩

/-- C8: the default configuration is empty apart from uid = gid = 1000, and
renders `--user 1000 --group 1000 --keep_env --`. -/
theorem c8_default_config :
    NSJail.default.mounts = []
    ∧ NSJail.default.links = []
    ∧ NSJail.default.env = []
    ∧ NSJail.default.user = 1000
    ∧ NSJail.default.group = 1000
    ∧ NSJail.default.command.args.take 4 = ["--user", "1000", "--group", "1000"]
    ∧ NSJail.default.command.args = ["--user", "1000", "--group", "1000", "--keep_env", "--"] := by
  exact ⟨rfl, rfl, rfl, rfl, rfl, rfl, rfl⟩

/-- C9: a tmpfs mount renders the same `-m none:dest:tmpfs:` pair no matter
how the readwrite flag is toggled. -/
theorem c9_tmpfs_ignores_write_flag (d : String) :
    (NSMount.temp d).to_write_arg = ("-m", "none:" ++ d ++ ":tmpfs:" ++ "")
    ∧ ((NSMount.temp d).make_readonly).to_write_arg = (NSMount.temp d).to_write_arg
    ∧ ((NSMount.temp d).make_readwrite).to_write_arg = (NSMount.temp d).to_write_arg := by
  exact ⟨rfl, rfl, rfl⟩

/-- C10: `mount` only appends to the mount list and `symlink` only appends
to the link list; each leaves every other field of the configuration
unchanged. -/
theorem c10_builder_frame (j : NSJail) (m : NSMount) (l : NSSymlink) :
    ((j.mount m).mounts = j.mounts ++ [m]
      ∧ (j.mount m).links = j.links
      ∧ (j.mount m).env = j.env
      ∧ (j.mount m).user = j.user
      ∧ (j.mount m).group = j.group)
    ∧ ((j.symlink l).links = j.links ++ [l]
      ∧ (j.symlink l).mounts = j.mounts
      ∧ (j.symlink l).env = j.env
      ∧ (j.symlink l).user = j.user
      ∧ (j.symlink l).group = j.group) := by
  exact ⟨⟨rfl, rfl, rfl, rfl, rfl⟩, ⟨rfl, rfl, rfl, rfl, rfl⟩⟩

end Winecellar
